import Mathlib

/-!
Verification of the OT-Security-Lab railway testbed.

Part 1 embeds the Interlocking Engine of `railway_plc_server.py`: the
register store (coils and holding registers as total maps over addresses),
the helper functions `b`, `clamp01`, `hr_get`, `hr_set`, `co_get`, `co_set`,
`read_inputs`, and the scan body `plc_logic_scan`.

Part 2 embeds the Frame-Rewrite Proxy of `modbus_gateway_console2.py`
(`process_modbus_payload` and the manual injection packet), with buffers as
lists of byte values and exceptions of the Python code rendered as `none`.

Part 3 embeds the per-tick remote-write emission of the Mode-Arbitration
Automaton main loop of `railway_pygame_final.py`.
-/

namespace RailwayPLC

/-- Pointwise update of a register map at one address. -/
def updf (f : Nat → Nat) (a v : Nat) : Nat → Nat := fun x => if x = a then v else f x

/-- The register store: coils and holding registers, each a total map from
addresses to values (the `ModbusSequentialDataBlock` contents). -/
structure Store where
  coils : Nat → Nat
  hrs : Nat → Nat

/-- `b(v) = 1 if int(v) != 0 else 0`. -/
def b (v : Nat) : Nat := if v ≠ 0 then 1 else 0

/-- `clamp01(v) = 1 if int(v) != 0 else 0`. -/
def clamp01 (v : Nat) : Nat := if v ≠ 0 then 1 else 0

def CO_TURNOUT_MAIN : Nat := 0
def CO_ESTOP : Nat := 1
def HR_SIG_AB : Nat := 0
def HR_SIG_BC : Nat := 1
def HR_SIG_SB : Nat := 2
def HR_IN_OCC_A : Nat := 100
def HR_IN_OCC_B : Nat := 101
def HR_IN_OCC_C : Nat := 102
def HR_IN_CRASH : Nat := 103
def HR_MODE : Nat := 50

/-- `hr_get`: read one holding register. -/
def hr_get (s : Store) (addr : Nat) : Nat := s.hrs addr

/-- `hr_set`: write one holding register (stores the value as given). -/
def hr_set (s : Store) (addr v : Nat) : Store := { s with hrs := updf s.hrs addr v }

/-- `co_get`: read one coil. -/
def co_get (s : Store) (addr : Nat) : Nat := s.coils addr

/-- `co_set`: write one coil; the Python helper stores `b(value)`. -/
def co_set (s : Store) (addr v : Nat) : Store := { s with coils := updf s.coils addr (b v) }

/-- The `Inputs` dataclass. -/
structure Inputs where
  occA : Nat
  occB : Nat
  occC : Nat
  crash : Nat

/-- `read_inputs`: normalize the four sensed registers through `b`. -/
def read_inputs (s : Store) : Inputs :=
  { occA := b (hr_get s HR_IN_OCC_A)
    occB := b (hr_get s HR_IN_OCC_B)
    occC := b (hr_get s HR_IN_OCC_C)
    crash := b (hr_get s HR_IN_CRASH) }

/-- One cycle of `plc_logic_scan`, translated statement by statement:
crash branch, estop clear, occupied-junction turnout override, then either
the manual clamp of the three signal registers or the autonomous
interlocking computation. -/
def plc_logic_scan (s : Store) : Store :=
  let mode := clamp01 (hr_get s HR_MODE)
  let ins := read_inputs s
  if ins.crash ≠ 0 then
    hr_set (hr_set (hr_set (co_set s CO_ESTOP 1) HR_SIG_AB 0) HR_SIG_BC 0) HR_SIG_SB 0
  else
    let s1 := co_set s CO_ESTOP 0
    let tm0 : Nat := if co_get s1 CO_TURNOUT_MAIN ≠ 0 then 1 else 0
    let turnout_main : Nat := if ins.occB ≠ 0 then 1 else tm0
    let s2 := if ins.occB ≠ 0 then co_set s1 CO_TURNOUT_MAIN 1 else s1
    if mode = 1 then
      let s3 := hr_set s2 HR_SIG_AB (clamp01 (hr_get s2 HR_SIG_AB))
      let s4 := hr_set s3 HR_SIG_BC (clamp01 (hr_get s3 HR_SIG_BC))
      hr_set s4 HR_SIG_SB (clamp01 (hr_get s4 HR_SIG_SB))
    else
      let sig_ab : Nat := if ins.occB = 0 then 1 else 0
      let sig_bc : Nat := if ins.occC = 0 then 1 else 0
      let sig_sb : Nat := if turnout_main = 1 ∧ ins.occB = 0 then 1 else 0
      hr_set (hr_set (hr_set s2 HR_SIG_AB sig_ab) HR_SIG_BC sig_bc) HR_SIG_SB sig_sb

theorem updf_self (f : Nat → Nat) (a v : Nat) : updf f a v a = v := by
  simp [updf]

theorem updf_ne (f : Nat → Nat) (a v x : Nat) (h : x ≠ a) : updf f a v x = f x := by
  simp [updf, h]

/-- With the crash register nonzero, the scan takes exactly the crash branch. -/
theorem crash_scan_eq (s : Store) (h : s.hrs HR_IN_CRASH ≠ 0) :
    plc_logic_scan s =
      hr_set (hr_set (hr_set (co_set s CO_ESTOP 1) HR_SIG_AB 0) HR_SIG_BC 0) HR_SIG_SB 0 := by
  simp [plc_logic_scan, read_inputs, b, hr_get, h]

/-- Concrete store: crash register set, everything else zero. -/
def storeCrash : Store :=
  { coils := fun _ => 0, hrs := fun a => if a = 103 then 1 else 0 }

/-- Concrete store: occupancy B and crash both set, turnout coil clear. -/
def storeBCrash : Store :=
  { coils := fun _ => 0, hrs := fun a => if a = 101 ∨ a = 103 then 1 else 0 }

/-- Concrete store: occupancy B set, crash clear, turnout coil clear. -/
def storeBOnly : Store :=
  { coils := fun _ => 0, hrs := fun a => if a = 101 then 1 else 0 }

/-- C1: if the crash register (holding register 103) is nonzero, one scan of
`plc_logic_scan` sets the emergency-stop coil (coil 1) to 1 and the three
signal registers (holding registers 0, 1, 2) to 0, and changes nothing else
in the store. -/
theorem crash_forces_estop_all_red (s : Store) (h : s.hrs HR_IN_CRASH ≠ 0) :
    (plc_logic_scan s).coils CO_ESTOP = 1 ∧
    (plc_logic_scan s).hrs HR_SIG_AB = 0 ∧
    (plc_logic_scan s).hrs HR_SIG_BC = 0 ∧
    (plc_logic_scan s).hrs HR_SIG_SB = 0 ∧
    (∀ a, a ≠ CO_ESTOP → (plc_logic_scan s).coils a = s.coils a) ∧
    (∀ a, a ≠ HR_SIG_AB → a ≠ HR_SIG_BC → a ≠ HR_SIG_SB →
      (plc_logic_scan s).hrs a = s.hrs a) := by
  rw [crash_scan_eq s h]
  refine ⟨?_, ?_, ?_, ?_, ?_, ?_⟩
  · simp [hr_set, co_set, updf, b, CO_ESTOP]
  · simp [hr_set, co_set, updf, HR_SIG_AB, HR_SIG_BC, HR_SIG_SB]
  · simp [hr_set, co_set, updf, HR_SIG_AB, HR_SIG_BC, HR_SIG_SB]
  · simp [hr_set, co_set, updf, HR_SIG_AB, HR_SIG_BC, HR_SIG_SB]
  · intro a ha
    simp [hr_set, co_set, updf, ha]
  · intro a h0 h1 h2
    simp [hr_set, co_set, updf, h0, h1, h2]

/-- Witness for C1 at the concrete store `storeCrash`. -/
theorem crash_forces_estop_all_red_witness :
    storeCrash.hrs HR_IN_CRASH ≠ 0 ∧
    ((plc_logic_scan storeCrash).coils CO_ESTOP = 1 ∧
     (plc_logic_scan storeCrash).hrs HR_SIG_AB = 0 ∧
     (plc_logic_scan storeCrash).hrs HR_SIG_BC = 0 ∧
     (plc_logic_scan storeCrash).hrs HR_SIG_SB = 0 ∧
     (∀ a, a ≠ CO_ESTOP → (plc_logic_scan storeCrash).coils a = storeCrash.coils a) ∧
     (∀ a, a ≠ HR_SIG_AB → a ≠ HR_SIG_BC → a ≠ HR_SIG_SB →
       (plc_logic_scan storeCrash).hrs a = storeCrash.hrs a)) :=
  ⟨by decide, crash_forces_estop_all_red storeCrash (by decide)⟩

/-- C3 counterexample: with occupancy B = 1 but the crash register also set,
the scan returns from the crash branch and never writes the turnout coil;
starting from turnout = 0 it stays 0, refuting the unconditional claim. -/
theorem occupiedB_turnout_counterexample :
    storeBCrash.hrs HR_IN_OCC_B = 1 ∧
    (plc_logic_scan storeBCrash).coils CO_TURNOUT_MAIN ≠ 1 := by
  constructor
  · decide
  · decide

/-- C3 amended: if the crash register is 0 and occupancy B (holding
register 101) = 1, one scan forces the turnout coil (coil 0) to 1,
regardless of the turnout value commanded before the scan. -/
theorem occupiedB_forces_turnout_main (s : Store)
    (hcrash : s.hrs HR_IN_CRASH = 0) (hb : s.hrs HR_IN_OCC_B = 1) :
    (plc_logic_scan s).coils CO_TURNOUT_MAIN = 1 := by
  have hc : s.hrs 103 = 0 := hcrash
  have hb1 : s.hrs 101 = 1 := hb
  by_cases hm : s.hrs 50 = 0 <;>
    simp [plc_logic_scan, read_inputs, b, clamp01, hr_get, hr_set, co_get, co_set, updf,
      hc, hb1, hm, HR_SIG_AB, HR_SIG_BC, HR_SIG_SB, CO_TURNOUT_MAIN, CO_ESTOP,
      HR_IN_OCC_A, HR_IN_OCC_B, HR_IN_OCC_C, HR_IN_CRASH, HR_MODE]

/-- Witness for the amended C3 at the concrete store `storeBOnly`. -/
theorem occupiedB_forces_turnout_main_witness :
    storeBOnly.hrs HR_IN_CRASH = 0 ∧ storeBOnly.hrs HR_IN_OCC_B = 1 ∧
    (plc_logic_scan storeBOnly).coils CO_TURNOUT_MAIN = 1 :=
  ⟨by decide, by decide, occupiedB_forces_turnout_main storeBOnly (by decide) (by decide)⟩

/-- Concrete store for automatic-mode tests: occupancy C set, turnout main. -/
def storeAuto : Store :=
  { coils := fun a => if a = 0 then 1 else 0, hrs := fun a => if a = 102 then 1 else 0 }

/-- C2: with crash = 0 and the mode register = 0 (autonomous), one scan puts
the occupancy interlock into the signal registers: signal AB = 1 iff
occupancy B = 0; signal BC = 1 iff occupancy C = 0; signal SB = 1 iff
occupancy B = 0 and the turnout coil after the occupied-junction override
reads as main (nonzero). -/
theorem auto_mode_signal_logic (s : Store)
    (hcrash : s.hrs HR_IN_CRASH = 0) (hmode : s.hrs HR_MODE = 0) :
    ((plc_logic_scan s).hrs HR_SIG_AB = 1 ↔ s.hrs HR_IN_OCC_B = 0) ∧
    ((plc_logic_scan s).hrs HR_SIG_BC = 1 ↔ s.hrs HR_IN_OCC_C = 0) ∧
    ((plc_logic_scan s).hrs HR_SIG_SB = 1 ↔
      (s.hrs HR_IN_OCC_B = 0 ∧ (plc_logic_scan s).coils CO_TURNOUT_MAIN ≠ 0)) := by
  have hc : s.hrs 103 = 0 := hcrash
  have hm : s.hrs 50 = 0 := hmode
  by_cases hb : s.hrs 101 = 0 <;> by_cases hcc : s.hrs 102 = 0 <;>
    by_cases ht : s.coils 0 = 0 <;>
    simp [plc_logic_scan, read_inputs, b, clamp01, hr_get, hr_set, co_get, co_set, updf,
      hc, hm, hb, hcc, ht, HR_SIG_AB, HR_SIG_BC, HR_SIG_SB, CO_TURNOUT_MAIN, CO_ESTOP,
      HR_IN_OCC_A, HR_IN_OCC_B, HR_IN_OCC_C, HR_IN_CRASH, HR_MODE]

/-- Witness for C2 at the concrete store `storeAuto`. -/
theorem auto_mode_signal_logic_witness :
    storeAuto.hrs HR_IN_CRASH = 0 ∧ storeAuto.hrs HR_MODE = 0 ∧
    (((plc_logic_scan storeAuto).hrs HR_SIG_AB = 1 ↔ storeAuto.hrs HR_IN_OCC_B = 0) ∧
     ((plc_logic_scan storeAuto).hrs HR_SIG_BC = 1 ↔ storeAuto.hrs HR_IN_OCC_C = 0) ∧
     ((plc_logic_scan storeAuto).hrs HR_SIG_SB = 1 ↔
       (storeAuto.hrs HR_IN_OCC_B = 0 ∧
        (plc_logic_scan storeAuto).coils CO_TURNOUT_MAIN ≠ 0))) :=
  ⟨by decide, by decide, auto_mode_signal_logic storeAuto (by decide) (by decide)⟩

/-- One manual-mode scan step: with crash = 0 and mode register = 1, the scan
only clamps the signal registers (identity on values already in {0,1}) and
leaves the crash and mode registers untouched. -/
theorem manual_scan_step (t : Store)
    (hc : t.hrs 103 = 0) (hm : t.hrs 50 = 1)
    (h0 : t.hrs 0 = 0 ∨ t.hrs 0 = 1)
    (h1 : t.hrs 1 = 0 ∨ t.hrs 1 = 1)
    (h2 : t.hrs 2 = 0 ∨ t.hrs 2 = 1) :
    (plc_logic_scan t).hrs 0 = t.hrs 0 ∧
    (plc_logic_scan t).hrs 1 = t.hrs 1 ∧
    (plc_logic_scan t).hrs 2 = t.hrs 2 ∧
    (plc_logic_scan t).hrs 103 = 0 ∧
    (plc_logic_scan t).hrs 50 = 1 := by
  by_cases hb : t.hrs 101 = 0 <;>
    rcases h0 with h0 | h0 <;> rcases h1 with h1 | h1 <;> rcases h2 with h2 | h2 <;>
    simp [plc_logic_scan, read_inputs, b, clamp01, hr_get, hr_set, co_get, co_set, updf,
      hc, hm, hb, h0, h1, h2, HR_SIG_AB, HR_SIG_BC, HR_SIG_SB, CO_TURNOUT_MAIN, CO_ESTOP,
      HR_IN_OCC_A, HR_IN_OCC_B, HR_IN_OCC_C, HR_IN_CRASH, HR_MODE]

/-- C5: with crash = 0, the mode register = 1 (externally supervised) and the
three signal registers holding values in {0,1}, any number of consecutive
scans leaves the three signal register values unchanged: the engine only
normalizes them and never recomputes them from occupancy logic. -/
theorem supervised_mode_preserves_signals (s : Store)
    (hcrash : s.hrs HR_IN_CRASH = 0) (hmode : s.hrs HR_MODE = 1)
    (h0 : s.hrs HR_SIG_AB = 0 ∨ s.hrs HR_SIG_AB = 1)
    (h1 : s.hrs HR_SIG_BC = 0 ∨ s.hrs HR_SIG_BC = 1)
    (h2 : s.hrs HR_SIG_SB = 0 ∨ s.hrs HR_SIG_SB = 1) :
    ∀ n : Nat,
      (plc_logic_scan^[n] s).hrs HR_SIG_AB = s.hrs HR_SIG_AB ∧
      (plc_logic_scan^[n] s).hrs HR_SIG_BC = s.hrs HR_SIG_BC ∧
      (plc_logic_scan^[n] s).hrs HR_SIG_SB = s.hrs HR_SIG_SB := by
  have key : ∀ n : Nat,
      (plc_logic_scan^[n] s).hrs 0 = s.hrs 0 ∧
      (plc_logic_scan^[n] s).hrs 1 = s.hrs 1 ∧
      (plc_logic_scan^[n] s).hrs 2 = s.hrs 2 ∧
      (plc_logic_scan^[n] s).hrs 103 = 0 ∧
      (plc_logic_scan^[n] s).hrs 50 = 1 := by
    intro n
    induction n with
    | zero => exact ⟨rfl, rfl, rfl, hcrash, hmode⟩
    | succ k ih =>
      obtain ⟨i0, i1, i2, i103, i50⟩ := ih
      have step := manual_scan_step (plc_logic_scan^[k] s) i103 i50
        (i0 ▸ h0) (i1 ▸ h1) (i2 ▸ h2)
      rw [Function.iterate_succ_apply']
      exact ⟨step.1.trans i0, step.2.1.trans i1, step.2.2.1.trans i2,
        step.2.2.2.1, step.2.2.2.2⟩
  intro n
  exact ⟨(key n).1, (key n).2.1, (key n).2.2.1⟩

/-- Concrete store for the supervised scenario: mode = 1, signals {0,1,0}. -/
def storeManual : Store :=
  { coils := fun _ => 0, hrs := fun a => if a = 50 ∨ a = 1 then 1 else 0 }

/-- Witness for C5 at the concrete store `storeManual` with n = 3. -/
theorem supervised_mode_preserves_signals_witness :
    storeManual.hrs HR_IN_CRASH = 0 ∧ storeManual.hrs HR_MODE = 1 ∧
    ((plc_logic_scan^[3] storeManual).hrs HR_SIG_AB = storeManual.hrs HR_SIG_AB ∧
     (plc_logic_scan^[3] storeManual).hrs HR_SIG_BC = storeManual.hrs HR_SIG_BC ∧
     (plc_logic_scan^[3] storeManual).hrs HR_SIG_SB = storeManual.hrs HR_SIG_SB) :=
  ⟨by decide, by decide,
    supervised_mode_preserves_signals storeManual (by decide) (by decide)
      (by decide) (by decide) (by decide) 3⟩

/-- C10: the scan output does not depend on occupancy A. For any two stores
that agree on all coils and on every holding register except 100, the scans
agree on all coils and on every holding register except 100, and neither
scan changes register 100. -/
theorem scan_independent_of_occA (s1 s2 : Store)
    (hc : s1.coils = s2.coils)
    (hh : ∀ a, a ≠ HR_IN_OCC_A → s1.hrs a = s2.hrs a) :
    (plc_logic_scan s1).coils = (plc_logic_scan s2).coils ∧
    (∀ a, a ≠ HR_IN_OCC_A → (plc_logic_scan s1).hrs a = (plc_logic_scan s2).hrs a) ∧
    (plc_logic_scan s1).hrs HR_IN_OCC_A = s1.hrs HR_IN_OCC_A ∧
    (plc_logic_scan s2).hrs HR_IN_OCC_A = s2.hrs HR_IN_OCC_A := by
  have h0 := hh 0 (by decide)
  have h1 := hh 1 (by decide)
  have h2 := hh 2 (by decide)
  have h50 := hh 50 (by decide)
  have h101 := hh 101 (by decide)
  have h102 := hh 102 (by decide)
  have h103 := hh 103 (by decide)
  refine ⟨?_, ?_, ?_, ?_⟩
  · by_cases c103 : s2.hrs 103 = 0 <;> by_cases c50 : s2.hrs 50 = 0 <;>
      by_cases cb : s2.hrs 101 = 0 <;>
      simp [plc_logic_scan, read_inputs, b, clamp01, hr_get, hr_set, co_get, co_set,
        h0, h1, h2, h50, h101, h102, h103, hc, c103, c50, cb,
        HR_SIG_AB, HR_SIG_BC, HR_SIG_SB, CO_TURNOUT_MAIN, CO_ESTOP,
        HR_IN_OCC_A, HR_IN_OCC_B, HR_IN_OCC_C, HR_IN_CRASH, HR_MODE]
  · intro a ha
    have ha' := hh a ha
    by_cases c103 : s2.hrs 103 = 0 <;> by_cases c50 : s2.hrs 50 = 0 <;>
      by_cases cb : s2.hrs 101 = 0 <;>
      simp [plc_logic_scan, read_inputs, b, clamp01, hr_get, hr_set, co_get, co_set, updf,
        h0, h1, h2, h50, h101, h102, h103, hc, ha', c103, c50, cb,
        HR_SIG_AB, HR_SIG_BC, HR_SIG_SB, CO_TURNOUT_MAIN, CO_ESTOP,
        HR_IN_OCC_A, HR_IN_OCC_B, HR_IN_OCC_C, HR_IN_CRASH, HR_MODE]
  · have : (100 : Nat) ≠ 0 ∧ (100 : Nat) ≠ 1 ∧ (100 : Nat) ≠ 2 := by decide
    by_cases c103 : s1.hrs 103 = 0 <;> by_cases c50 : s1.hrs 50 = 0 <;>
      by_cases cb : s1.hrs 101 = 0 <;>
      simp [plc_logic_scan, read_inputs, b, clamp01, hr_get, hr_set, co_get, co_set, updf,
        c103, c50, cb, HR_SIG_AB, HR_SIG_BC, HR_SIG_SB, CO_TURNOUT_MAIN, CO_ESTOP,
        HR_IN_OCC_A, HR_IN_OCC_B, HR_IN_OCC_C, HR_IN_CRASH, HR_MODE]
  · by_cases c103 : s2.hrs 103 = 0 <;> by_cases c50 : s2.hrs 50 = 0 <;>
      by_cases cb : s2.hrs 101 = 0 <;>
      simp [plc_logic_scan, read_inputs, b, clamp01, hr_get, hr_set, co_get, co_set, updf,
        c103, c50, cb, HR_SIG_AB, HR_SIG_BC, HR_SIG_SB, CO_TURNOUT_MAIN, CO_ESTOP,
        HR_IN_OCC_A, HR_IN_OCC_B, HR_IN_OCC_C, HR_IN_CRASH, HR_MODE]

/-- Concrete store pair for C10: they differ exactly at register 100. -/
def storeOccA1 : Store :=
  { coils := fun _ => 0, hrs := fun a => if a = 100 then 1 else 0 }

/-- Second store of the C10 pair: register 100 clear. -/
def storeOccA0 : Store :=
  { coils := fun _ => 0, hrs := fun _ => 0 }

/-- Witness for C10 at the concrete pair `storeOccA1`, `storeOccA0`. -/
theorem scan_independent_of_occA_witness :
    storeOccA1.coils = storeOccA0.coils ∧
    (∀ a, a ≠ HR_IN_OCC_A → storeOccA1.hrs a = storeOccA0.hrs a) ∧
    ((plc_logic_scan storeOccA1).coils = (plc_logic_scan storeOccA0).coils ∧
     (∀ a, a ≠ HR_IN_OCC_A →
       (plc_logic_scan storeOccA1).hrs a = (plc_logic_scan storeOccA0).hrs a) ∧
     (plc_logic_scan storeOccA1).hrs HR_IN_OCC_A = storeOccA1.hrs HR_IN_OCC_A ∧
     (plc_logic_scan storeOccA0).hrs HR_IN_OCC_A = storeOccA0.hrs HR_IN_OCC_A) := by
  have hco : storeOccA1.coils = storeOccA0.coils := rfl
  have hhr : ∀ a, a ≠ HR_IN_OCC_A → storeOccA1.hrs a = storeOccA0.hrs a := by
    intro a ha
    simp [storeOccA1, storeOccA0]
    intro h
    exact absurd h ha
  exact ⟨hco, hhr, scan_independent_of_occA storeOccA1 storeOccA0 hco hhr⟩

end RailwayPLC

namespace ModbusGateway

/-- Byte at index `i` of a buffer; 0 past the end. -/
def byte (l : List Nat) (i : Nat) : Nat := (l[i]?).getD 0

/-- Big-endian decoding of two bytes, as done by `struct.unpack(">H...")`. -/
def be16 (hi lo : Nat) : Nat := 256 * hi + lo

def SIG_BC_HR_ADDR : Nat := 1
def UNIT_ID : Nat := 1

theorem byte_append_left (l1 l2 : List Nat) (i : Nat) (h : i < l1.length) :
    byte (l1 ++ l2) i = byte l1 i := by
  simp [byte, List.getElem?_append, h]

theorem byte_append_right (l1 l2 : List Nat) (i : Nat) (h : l1.length ≤ i) :
    byte (l1 ++ l2) i = byte l2 (i - l1.length) := by
  simp [byte, List.getElem?_append, Nat.not_lt.mpr h]

theorem byte_take (l : List Nat) (n i : Nat) (h : i < n) :
    byte (l.take n) i = byte l i := by
  simp [byte, List.getElem?_take, h]

theorem byte_drop (l : List Nat) (n i : Nat) : byte (l.drop n) i = byte l (n + i) := by
  simp [byte, List.getElem?_drop]

theorem byte_set_self (l : List Nat) (i v : Nat) (h : i < l.length) :
    byte (l.set i v) i = v := by
  simp [byte, List.getElem?_set_eq_of_lt, h]

theorem byte_set_ne (l : List Nat) (i j v : Nat) (h : i ≠ j) :
    byte (l.set i v) j = byte l j := by
  simp [byte, List.getElem?_set_ne h]

theorem byte_past_end (l : List Nat) (i : Nat) (h : l.length ≤ i) : byte l i = 0 := by
  simp [byte, List.getElem?_eq_none h]

/-- The per-frame body of `process_modbus_payload`: read the function code
`pdu[0]`; on a write-multiple-registers frame whose address range covers the
protected register, overwrite the two value bytes for that register with the
forced value 0x0001; otherwise leave the frame alone. Python index and
unpack errors are rendered as `none`. -/
def rewriteFrame (frame : List Nat) : Option (List Nat) :=
  let pdu := frame.drop 7
  if pdu = [] then none
  else
    let func_code := byte pdu 0
    if func_code = 16 then
      if pdu.length < 5 then none
      else
        let start_addr := be16 (byte pdu 1) (byte pdu 2)
        let qty := be16 (byte pdu 3) (byte pdu 4)
        if start_addr ≤ SIG_BC_HR_ADDR ∧ SIG_BC_HR_ADDR < start_addr + qty then
          let val_offset := 6 + (SIG_BC_HR_ADDR - start_addr) * 2
          if val_offset + 1 < pdu.length then
            some (frame.take 7 ++ ((pdu.set val_offset 0).set (val_offset + 1) 1))
          else none
        else some frame
    else some frame

/-- The client-to-server relay body `process_modbus_payload`: while at least
7 bytes remain, read the MBAP header, slice off a frame of 6 + length-field
bytes, rewrite it, append it to the output and continue past it; when fewer
than 7 bytes remain the loop stops and the remainder is not emitted. An
exception anywhere discards the whole output and is rendered as `none`. -/
def process_modbus_payload (data : List Nat) : Option (List Nat) :=
  if _h7 : 7 ≤ data.length then
    let total := 6 + be16 (byte data 4) (byte data 5)
    match rewriteFrame (data.take total) with
    | none => none
    | some f2 =>
      match process_modbus_payload (data.drop total) with
      | none => none
      | some rest => some (f2 ++ rest)
  else some []
termination_by data.length
decreasing_by
  simp only [List.length_drop]
  omega

/-- The transaction id chosen by the manual console for an injected frame:
one above the last observed id, reduced mod 65535. -/
def manual_tid (latest_transaction_id : Nat) : Nat :=
  (latest_transaction_id + 1) % 65535

/-- `>H`: big-endian two-byte encoding of a 16-bit value. -/
def packH (v : Nat) : List Nat := [v / 256 % 256, v % 256]

/-- The injected frame
`struct.pack(">HHHBBHH", tid, 0, 6, UNIT_ID, 6, SIG_BC_HR_ADDR, val)`
with `tid = manual_tid latest`. -/
def manual_packet (latest_transaction_id val : Nat) : List Nat :=
  packH (manual_tid latest_transaction_id) ++ packH 0 ++ packH 6 ++
    [UNIT_ID] ++ [6] ++ packH SIG_BC_HR_ADDR ++ packH val

/-- Past the loop guard (fewer than 7 bytes left), the loop emits nothing. -/
theorem process_small (data : List Nat) (h : data.length < 7) :
    process_modbus_payload data = some [] := by
  rw [process_modbus_payload]
  simp [Nat.not_le.mpr h]

/-- One iteration of the loop with at least 7 bytes available. -/
theorem process_step (data : List Nat) (h : 7 ≤ data.length) :
    process_modbus_payload data =
      match rewriteFrame (data.take (6 + be16 (byte data 4) (byte data 5))) with
      | none => none
      | some f2 =>
        match process_modbus_payload (data.drop (6 + be16 (byte data 4) (byte data 5))) with
        | none => none
        | some rest => some (f2 ++ rest) := by
  rw [process_modbus_payload]
  simp [h]

/-- A complete frame: at least the 7-byte header, and a total length equal
to 6 plus the value of the length field. -/
def CompleteFrame (f : List Nat) : Prop :=
  7 ≤ f.length ∧ f.length = 6 + be16 (byte f 4) (byte f 5)

instance (f : List Nat) : Decidable (CompleteFrame f) := by
  unfold CompleteFrame
  infer_instance

/-- Processing a buffer that starts with a complete frame: the frame is
sliced off, rewritten, and the loop continues on the rest. -/
theorem process_append_frame (f t : List Nat) (hf : CompleteFrame f) :
    process_modbus_payload (f ++ t) =
      match rewriteFrame f with
      | none => none
      | some f2 =>
        match process_modbus_payload t with
        | none => none
        | some rest => some (f2 ++ rest) := by
  obtain ⟨h7, hlen⟩ := hf
  have hb4 : byte (f ++ t) 4 = byte f 4 := byte_append_left f t 4 (by omega)
  have hb5 : byte (f ++ t) 5 = byte f 5 := byte_append_left f t 5 (by omega)
  have hlen' : (f ++ t).length = f.length + t.length := List.length_append f t
  have hstep := process_step (f ++ t) (by omega)
  rw [hstep, hb4, hb5, ← hlen, List.take_left, List.drop_left]

/-- C6: a complete write-multiple-registers frame (function code 16) whose
address range covers the protected register 1 is re-emitted with exactly the
two payload bytes for that register forced to 0x00, 0x01; the length and
every other byte (header, transaction id, rest of the payload) are
unchanged. -/
theorem rewrite_forces_two_bytes (frame : List Nat)
    (hlen : frame.length = 6 + be16 (byte frame 4) (byte frame 5))
    (hfc : byte frame 7 = 16)
    (hS : be16 (byte frame 8) (byte frame 9) ≤ 1)
    (hQ : 1 < be16 (byte frame 8) (byte frame 9) + be16 (byte frame 10) (byte frame 11))
    (hroom : 8 + (6 + (1 - be16 (byte frame 8) (byte frame 9)) * 2) < frame.length) :
    ∃ out, process_modbus_payload frame = some out ∧
      out.length = frame.length ∧
      byte out (7 + (6 + (1 - be16 (byte frame 8) (byte frame 9)) * 2)) = 0 ∧
      byte out (8 + (6 + (1 - be16 (byte frame 8) (byte frame 9)) * 2)) = 1 ∧
      ∀ i, i ≠ 7 + (6 + (1 - be16 (byte frame 8) (byte frame 9)) * 2) →
        i ≠ 8 + (6 + (1 - be16 (byte frame 8) (byte frame 9)) * 2) →
        byte out i = byte frame i := by
  have hplen : (frame.drop 7).length = frame.length - 7 := by simp
  have hpne : frame.drop 7 ≠ [] := by
    intro hnil
    rw [hnil] at hplen
    simp at hplen
    omega
  have h71 : byte (frame.drop 7) 0 = byte frame 7 := byte_drop frame 7 0
  have h78 : byte (frame.drop 7) 1 = byte frame 8 := byte_drop frame 7 1
  have h79 : byte (frame.drop 7) 2 = byte frame 9 := byte_drop frame 7 2
  have h710 : byte (frame.drop 7) 3 = byte frame 10 := byte_drop frame 7 3
  have h711 : byte (frame.drop 7) 4 = byte frame 11 := byte_drop frame 7 4
  have hrw : rewriteFrame frame =
      some (frame.take 7 ++
        (((frame.drop 7).set (6 + (1 - be16 (byte frame 8) (byte frame 9)) * 2) 0).set
          ((6 + (1 - be16 (byte frame 8) (byte frame 9)) * 2) + 1) 1)) := by
    unfold rewriteFrame
    rw [if_neg hpne, h71, if_pos hfc, h78, h79, h710, h711]
    rw [if_neg (by omega)]
    rw [if_pos (by constructor <;> [simpa [SIG_BC_HR_ADDR] using hS;
      simpa [SIG_BC_HR_ADDR] using hQ])]
    rw [if_pos (by simp only [SIG_BC_HR_ADDR]; omega)]
    simp [SIG_BC_HR_ADDR]
  have h7 : 7 ≤ frame.length := by omega
  have htake : frame.take (6 + be16 (byte frame 4) (byte frame 5)) = frame :=
    List.take_of_length_le (by omega)
  have hdropnil : frame.drop (6 + be16 (byte frame 4) (byte frame 5)) = [] :=
    List.drop_of_length_le (by omega)
  refine ⟨frame.take 7 ++
    (((frame.drop 7).set (6 + (1 - be16 (byte frame 8) (byte frame 9)) * 2) 0).set
      ((6 + (1 - be16 (byte frame 8) (byte frame 9)) * 2) + 1) 1), ?_, ?_, ?_, ?_, ?_⟩
  · rw [process_step frame h7, htake, hdropnil, hrw, process_small [] (by simp)]
    simp
  · simp
    omega
  · have hlen7 : (frame.take 7).length = 7 := by simp; omega
    rw [byte_append_right _ _ _ (by omega), hlen7]
    have : 7 + (6 + (1 - be16 (byte frame 8) (byte frame 9)) * 2) - 7 =
        6 + (1 - be16 (byte frame 8) (byte frame 9)) * 2 := by omega
    rw [this, byte_set_ne _ _ _ _ (by omega), byte_set_self]
    simp
    omega
  · have hlen7 : (frame.take 7).length = 7 := by simp; omega
    rw [byte_append_right _ _ _ (by omega), hlen7]
    have : 8 + (6 + (1 - be16 (byte frame 8) (byte frame 9)) * 2) - 7 =
        (6 + (1 - be16 (byte frame 8) (byte frame 9)) * 2) + 1 := by omega
    rw [this, byte_set_self]
    simp
    omega
  · intro i hi1 hi2
    have hlen7 : (frame.take 7).length = 7 := by simp; omega
    by_cases hlt : i < 7
    · rw [byte_append_left _ _ _ (by omega), byte_take _ _ _ hlt]
    · rw [byte_append_right _ _ _ (by omega), hlen7]
      rw [byte_set_ne _ _ _ _ (by omega), byte_set_ne _ _ _ _ (by omega), byte_drop]
      have : 7 + (i - 7) = i := by omega
      rw [this]

/-- C7: a complete frame whose function code is not 16, or whose register
range does not cover the protected register 1, is forwarded byte-for-byte
identical, transaction id included. -/
theorem passthrough_is_identity (frame : List Nat)
    (hlen : frame.length = 6 + be16 (byte frame 4) (byte frame 5))
    (h8 : 8 ≤ frame.length)
    (hnot : byte frame 7 = 16 →
      12 ≤ frame.length ∧
      ¬(be16 (byte frame 8) (byte frame 9) ≤ 1 ∧
        1 < be16 (byte frame 8) (byte frame 9) + be16 (byte frame 10) (byte frame 11))) :
    process_modbus_payload frame = some frame := by
  have hplen : (frame.drop 7).length = frame.length - 7 := by simp
  have hpne : frame.drop 7 ≠ [] := by
    intro hnil
    rw [hnil] at hplen
    simp at hplen
    omega
  have h71 : byte (frame.drop 7) 0 = byte frame 7 := byte_drop frame 7 0
  have h78 : byte (frame.drop 7) 1 = byte frame 8 := byte_drop frame 7 1
  have h79 : byte (frame.drop 7) 2 = byte frame 9 := byte_drop frame 7 2
  have h710 : byte (frame.drop 7) 3 = byte frame 10 := byte_drop frame 7 3
  have h711 : byte (frame.drop 7) 4 = byte frame 11 := byte_drop frame 7 4
  have hrw : rewriteFrame frame = some frame := by
    unfold rewriteFrame
    rw [if_neg hpne, h71]
    by_cases hfc : byte frame 7 = 16
    · obtain ⟨h12, hcov⟩ := hnot hfc
      rw [if_pos hfc, h78, h79, h710, h711]
      rw [if_neg (by omega)]
      rw [if_neg (by simpa [SIG_BC_HR_ADDR] using hcov)]
    · rw [if_neg hfc]
  have h7 : 7 ≤ frame.length := by omega
  have htake : frame.take (6 + be16 (byte frame 4) (byte frame 5)) = frame :=
    List.take_of_length_le (by omega)
  have hdropnil : frame.drop (6 + be16 (byte frame 4) (byte frame 5)) = [] :=
    List.drop_of_length_le (by omega)
  rw [process_step frame h7, htake, hdropnil, hrw, process_small [] (by simp)]
  simp

/-- C8 counterexample: six trailing bytes of an incomplete frame are
dropped, not preserved — the relay output for this buffer is empty. -/
theorem leftover_tail_dropped :
    process_modbus_payload [1, 2, 3, 4, 5, 6] = some [] ∧
    ([1, 2, 3, 4, 5, 6] : List Nat) ≠ [] :=
  ⟨process_small _ (by simp), by simp⟩

/-- C8 amended: the loop does handle any number of complete back-to-back
frames in one buffer, but a trailing fragment shorter than the 7-byte
header is dropped from the output rather than preserved. -/
theorem multiframe_handled_short_tail_dropped (fs : List (List Nat)) (rest : List Nat)
    (hrest : rest.length < 7)
    (hfs : ∀ f ∈ fs, CompleteFrame f ∧ (rewriteFrame f).isSome) :
    process_modbus_payload (fs.flatten ++ rest) =
      some ((fs.map (fun f => (rewriteFrame f).getD [])).flatten) := by
  induction fs with
  | nil => simpa using process_small rest hrest
  | cons f fs ih =>
    obtain ⟨hcf, hsome⟩ := hfs f (by simp)
    obtain ⟨f2, hf2⟩ := Option.isSome_iff_exists.mp hsome
    have ih' := ih fun g hg => hfs g (by simp [hg])
    rw [List.flatten_cons, List.append_assoc, process_append_frame f _ hcf, hf2, ih']
    simp [hf2]

/-- C9 counterexample: the injected transaction id is computed mod 65535,
so after observing id 65535 the injected id is 1, not 0 as the claim (which
asserts reduction mod 65536) requires. -/
theorem manual_tid_counterexample :
    manual_tid 65535 = 1 ∧ manual_tid 65535 ≠ (65535 + 1) % 65536 := by
  constructor <;> decide

/-- C9 amended: the injected frame carries in its first two bytes, big
endian, the transaction id (last observed + 1) mod 65535 — the reduction is
modulo 65535, not the 16-bit space; in particular a last observed id of
65534 yields 0 and a last observed id of 65535 yields 1. -/
theorem manual_packet_tid_mod (latest val : Nat) :
    be16 (byte (manual_packet latest val) 0) (byte (manual_packet latest val) 1) =
      (latest + 1) % 65535 ∧
    (latest + 1) % 65535 < 65535 := by
  constructor
  · simp [manual_packet, packH, manual_tid, byte, be16]
    omega
  · exact Nat.mod_lt _ (by norm_num)

/-- Concrete FC16 frame: write registers 0..2 with values 1, 9, 1. -/
def gwFrame16 : List Nat := [0, 1, 0, 0, 0, 13, 1, 16, 0, 0, 0, 3, 6, 0, 1, 0, 9, 0, 1]

/-- Witness for C6 at the concrete frame `gwFrame16`. -/
theorem rewrite_forces_two_bytes_witness :
    gwFrame16.length = 6 + be16 (byte gwFrame16 4) (byte gwFrame16 5) ∧
    byte gwFrame16 7 = 16 ∧
    be16 (byte gwFrame16 8) (byte gwFrame16 9) ≤ 1 ∧
    1 < be16 (byte gwFrame16 8) (byte gwFrame16 9) +
      be16 (byte gwFrame16 10) (byte gwFrame16 11) ∧
    8 + (6 + (1 - be16 (byte gwFrame16 8) (byte gwFrame16 9)) * 2) < gwFrame16.length ∧
    (∃ out, process_modbus_payload gwFrame16 = some out ∧
      out.length = gwFrame16.length ∧
      byte out (7 + (6 + (1 - be16 (byte gwFrame16 8) (byte gwFrame16 9)) * 2)) = 0 ∧
      byte out (8 + (6 + (1 - be16 (byte gwFrame16 8) (byte gwFrame16 9)) * 2)) = 1 ∧
      ∀ i, i ≠ 7 + (6 + (1 - be16 (byte gwFrame16 8) (byte gwFrame16 9)) * 2) →
        i ≠ 8 + (6 + (1 - be16 (byte gwFrame16 8) (byte gwFrame16 9)) * 2) →
        byte out i = byte gwFrame16 i) :=
  ⟨by decide, by decide, by decide, by decide, by decide,
    rewrite_forces_two_bytes gwFrame16 (by decide) (by decide) (by decide)
      (by decide) (by decide)⟩

/-- Concrete read-coils frame (function code 1). -/
def gwFrameRead : List Nat := [0, 5, 0, 0, 0, 6, 1, 1, 0, 0, 0, 2]

/-- Witness for C7 at the concrete frame `gwFrameRead`. -/
theorem passthrough_is_identity_witness :
    gwFrameRead.length = 6 + be16 (byte gwFrameRead 4) (byte gwFrameRead 5) ∧
    8 ≤ gwFrameRead.length ∧
    (byte gwFrameRead 7 = 16 →
      12 ≤ gwFrameRead.length ∧
      ¬(be16 (byte gwFrameRead 8) (byte gwFrameRead 9) ≤ 1 ∧
        1 < be16 (byte gwFrameRead 8) (byte gwFrameRead 9) +
          be16 (byte gwFrameRead 10) (byte gwFrameRead 11))) ∧
    process_modbus_payload gwFrameRead = some gwFrameRead :=
  ⟨by decide, by decide, by decide,
    passthrough_is_identity gwFrameRead (by decide) (by decide) (by decide)⟩

/-- Concrete complete frame with a non-16 function code. -/
def gwFrameSmall : List Nat := [0, 0, 0, 0, 0, 3, 1, 5, 9]

/-- Witness for the amended C8: one complete frame plus a 2-byte fragment. -/
theorem multiframe_handled_short_tail_dropped_witness :
    ([7, 7] : List Nat).length < 7 ∧
    (∀ f ∈ [gwFrameSmall], CompleteFrame f ∧ (rewriteFrame f).isSome) ∧
    process_modbus_payload ([gwFrameSmall].flatten ++ [7, 7]) =
      some (([gwFrameSmall].map (fun f => (rewriteFrame f).getD [])).flatten) :=
  ⟨by decide, by decide,
    multiframe_handled_short_tail_dropped [gwFrameSmall] [7, 7] (by decide) (by decide)⟩

end ModbusGateway

namespace RailwayGame

/-- A remote Modbus write issued by the game loop: `write_registers` or
`write_coils`, with target address and values. -/
inductive RemoteWrite
  | writeRegisters (addr : Nat) (values : List Nat)
  | writeCoils (addr : Nat) (value : Nat)
deriving DecidableEq

/-- The loop variables of `main` in `railway_pygame_final.py` that gate or
feed remote writes. -/
structure GameState where
  crash_active : Bool
  crash_sent_to_plc : Bool
  wait_until : ℚ
  crash_start : ℚ
  mode_auto : Bool
  scada_mode_manual : Bool
  need_resync : Bool
  auto_write_hold_until : ℚ
  last_plc : ℚ
  occA : Nat
  occB : Nat
  occC : Nat
  sig_ab : Nat
  sig_bc : Nat
  sig_sb : Nat

/-- The per-tick environment: the wall clock (the `time.time()` calls of one
iteration are modelled as one instant), connection state, the outcomes of
the remote reads of this tick, and pending keyboard input. -/
structure TickInput where
  now : ℚ
  plc_connected : Bool
  sync_ok : Bool
  sync_mode_resync : Option Nat
  read_mode : Option Nat
  sync_mode_manual : Option Nat
  keyT : Bool
  turnout_cur : Nat

def CRASH_DURATION : ℚ := 12 / 10
def PLC_POLL_SEC : ℚ := 1 / 10

/-- `effective_manual`: manual if locally or remotely requested, forcibly
disabled while a crash is active. -/
def effective_manual (crash_active mode_auto scada_mode_manual : Bool) : Bool :=
  if crash_active then false else (!mode_auto || scada_mode_manual)

/-- `in_wait_window`: inside the blackout only if no crash is active. -/
def in_wait_window (st : GameState) (now_t : ℚ) : Bool :=
  if st.crash_active then false else decide (now_t < st.wait_until)

/-- `comms_enabled`: zero Modbus traffic during wait windows; a crash forces
comms on so the crash flag can be pushed. -/
def comms_enabled (st : GameState) (now_t : ℚ) : Bool :=
  if st.crash_active then true else !(in_wait_window st now_t)

/-- The remote writes issued by one iteration of the main loop, in program
order: the crash push (`write_crash_only(1)`), the poll block with
resynchronization and AUTO publish (`write_inputs`, `write_signals`), the
turnout-toggle key handler (`toggle_turnout`), and the crash reset
(`write_crash_only(0)`). The mode reads threaded through
`sync_from_plc_apply` and the direct `HR_MODE` read update the supervised
flag exactly where the Python code does. -/
def tickWrites (st : GameState) (inp : TickInput) : List RemoteWrite :=
  let comms_on := comms_enabled st inp.now
  let crashPush :=
    if st.crash_active && !st.crash_sent_to_plc && inp.plc_connected then
      [RemoteWrite.writeRegisters 103 [1]]
    else []
  let pollBlock :=
    if comms_on && decide (PLC_POLL_SEC ≤ inp.now - st.last_plc) then
      let doResync := st.need_resync && !st.crash_active && inp.sync_ok
      let hold := if doResync then inp.now + 1 / 2 else st.auto_write_hold_until
      let sm0 := if doResync then
          (match inp.sync_mode_resync with
            | some v => decide (v ≠ 0)
            | none => st.scada_mode_manual)
        else st.scada_mode_manual
      if inp.plc_connected then
        let sm1 := match inp.read_mode with
          | some v => decide (v ≠ 0)
          | none => sm0
        let sm2 :=
          if effective_manual st.crash_active st.mode_auto sm1 && !st.crash_active then
            (match inp.sync_mode_manual with
              | some v => decide (v ≠ 0)
              | none => sm1)
          else sm1
        if !(effective_manual st.crash_active st.mode_auto sm2) &&
            !st.crash_active && decide (hold ≤ inp.now) then
          [RemoteWrite.writeRegisters 100 [st.occA, st.occB, st.occC, 0],
           RemoteWrite.writeRegisters 0 [st.sig_ab, st.sig_bc, st.sig_sb]]
        else []
      else []
    else []
  let keyToggle :=
    if inp.keyT && comms_on && !st.crash_active then
      [RemoteWrite.writeCoils 0 (if inp.turnout_cur ≠ 0 then 0 else 1)]
    else []
  let crashClear :=
    if st.crash_active && decide (CRASH_DURATION ≤ inp.now - st.crash_start) &&
        inp.plc_connected then
      [RemoteWrite.writeRegisters 103 [0]]
    else []
  crashPush ++ pollBlock ++ keyToggle ++ crashClear

/-- C4: with the wall clock inside the blackout window (before
`wait_until`), a tick of the loop issues no remote write at all when no
collision is active, and while a collision is active the only writes it can
issue are the single-register crash-flag writes (103 := 1 or 103 := 0);
occupancy and signal publishes and turnout toggles never occur. -/
theorem blackout_no_writes (st : GameState) (inp : TickInput)
    (hwin : inp.now < st.wait_until) :
    (st.crash_active = false → tickWrites st inp = []) ∧
    (∀ w ∈ tickWrites st inp,
      st.crash_active = true ∧
      (w = RemoteWrite.writeRegisters 103 [1] ∨
       w = RemoteWrite.writeRegisters 103 [0])) := by
  constructor
  · intro hca
    simp [tickWrites, comms_enabled, in_wait_window, hca, hwin]
  · intro w hw
    cases hca : st.crash_active with
    | false =>
      exfalso
      have h0 : tickWrites st inp = [] := by
        simp [tickWrites, comms_enabled, in_wait_window, hca, hwin]
      rw [h0] at hw
      exact List.not_mem_nil w hw
    | true =>
      refine ⟨rfl, ?_⟩
      have hsub : tickWrites st inp ⊆
          [RemoteWrite.writeRegisters 103 [1], RemoteWrite.writeRegisters 103 [0]] := by
        intro x hx
        simp only [tickWrites, comms_enabled, in_wait_window, effective_manual, hca,
          Bool.not_true, Bool.and_false, Bool.false_and, Bool.true_and, Bool.false_or,
          if_true, ite_self, List.append_nil, List.nil_append] at hx
        split_ifs at hx <;> simp_all
      have := hsub hw
      simpa using this

/-- Concrete game state inside a blackout window, no collision. -/
def gsQuiet : GameState :=
  { crash_active := false, crash_sent_to_plc := false, wait_until := 3,
    crash_start := 0, mode_auto := true, scada_mode_manual := false,
    need_resync := false, auto_write_hold_until := 0, last_plc := 0,
    occA := 1, occB := 0, occC := 0, sig_ab := 0, sig_bc := 0, sig_sb := 0 }

/-- Concrete tick input during that window: poll due, key pressed. -/
def tiQuiet : TickInput :=
  { now := 1, plc_connected := true, sync_ok := true, sync_mode_resync := none,
    read_mode := some 0, sync_mode_manual := none, keyT := true, turnout_cur := 1 }

/-- Witness for C4 at the concrete pair `gsQuiet`, `tiQuiet`. -/
theorem blackout_no_writes_witness :
    tiQuiet.now < gsQuiet.wait_until ∧
    ((gsQuiet.crash_active = false → tickWrites gsQuiet tiQuiet = []) ∧
     (∀ w ∈ tickWrites gsQuiet tiQuiet,
       gsQuiet.crash_active = true ∧
       (w = RemoteWrite.writeRegisters 103 [1] ∨
        w = RemoteWrite.writeRegisters 103 [0]))) :=
  ⟨by norm_num [tiQuiet, gsQuiet], blackout_no_writes gsQuiet tiQuiet (by norm_num [tiQuiet, gsQuiet])⟩

end RailwayGame
